import Mathlib

/-!
Shallow embedding of the hospital-ui dashboard (Next.js + Supabase client).

Sources embedded here:
- `src/app/api/hospitals/route.ts` (first document): the `PATCH /hospitals`
  route handler — lazy server-client creation, guarded JSON parsing,
  validation, update forwarding, response shapes.
- `src/unnamed/part_002`: the table page — `blendScore`, `setStatus`,
  `setRating`, `addHospital` quick-add payload, `importCSV` row mapping.
- `src/app/page.tsx`: the dashboard page — `fetchRows`, `totals`,
  `toggleStatus`, `toggleColdEmail`, `bulkToggleColdEmail`, toast pushes.

Numbers are modelled as `ℚ` (the JS values in play are small decimals; no
NaN/Infinity arises on the modelled paths).  JS `null`/`undefined` are
modelled with `Option`; where the code distinguishes key *presence* from a
null value (the `hasOwnProperty` check on `cold_emailed`), the field is an
`Option (Option _)` with `none` = key absent and `some none` = null.
Asynchronous store calls are modelled by passing each call's outcome as an
explicit argument; result records count the store calls performed.
-/

/-! ### JS primitives -/

/-- JS `Math.round`: round half toward positive infinity. -/
def jsRound (x : ℚ) : ℤ := ⌊x + 1/2⌋

/-- Splitting accumulator: cut the character list at every separator,
keeping empty pieces, exactly like JS `String.prototype.split` with a
single-character-class regex. -/
def splitSepAux (p : Char → Bool) : List Char → List Char → List (List Char)
  | [], acc => [acc.reverse]
  | c :: cs, acc =>
    if p c then acc.reverse :: splitSepAux p cs [] else splitSepAux p cs (c :: acc)

/-- JS `s.split(sep)` for a character-class separator. -/
def jsSplit (p : Char → Bool) (s : String) : List String :=
  (splitSepAux p s.data []).map String.mk

/-- The whitespace characters JS `trim` strips (restricted to the ASCII
ones, which are the only ones arising in this data). -/
def jsWhitespace (c : Char) : Bool := c == ' ' || c == '\t' || c == '\n' || c == '\r'

def trimChars (l : List Char) : List Char :=
  ((l.dropWhile jsWhitespace).reverse.dropWhile jsWhitespace).reverse

/-- JS `s.trim()`. -/
def jsTrim (s : String) : String := String.mk (trimChars s.data)

/-- ASCII lowercasing of one character. -/
def charLower (c : Char) : Char :=
  if 65 ≤ c.toNat && c.toNat ≤ 90 then Char.ofNat (c.toNat + 32) else c

/-- JS `s.toLowerCase()` (ASCII fragment). -/
def jsToLower (s : String) : String := String.mk (s.data.map charLower)

/-- JS `s.startsWith(pre)`. -/
def jsStartsWith (s pre : String) : Bool := pre.data.isPrefixOf s.data

/-- JS `x || d` on numbers (0 is falsy; no NaN in this model). -/
def jsNumOr (x d : ℚ) : ℚ := if x = 0 then d else x

/-- JS string truthiness of a possibly-absent string (`""`, `null`,
`undefined` are falsy). -/
def truthyS (a : Option String) : Bool :=
  match a with
  | some s => s ≠ ""
  | none => false

/-- JS `a || rest` where `a : string | null | undefined` and the result is
used as a string. -/
def jsStrOr (a : Option String) (rest : String) : String :=
  match a with
  | some s => if s = "" then rest else s
  | none => rest

/-- JS `s || null` for a plain string (empty string becomes null). -/
def jsStrOrNull (s : String) : Option String :=
  if s = "" then none else some s

/-- JS `a || b || null` on possibly-absent strings. -/
def jsStrOr2Null (a b : Option String) : Option String :=
  if truthyS a then a else if truthyS b then b else none

/-- JS `a || b || c || null` on possibly-absent strings. -/
def jsStrOr3Null (a b c : Option String) : Option String :=
  if truthyS a then a else if truthyS b then b else if truthyS c then c else none

/-! ### part_002 : table page (`blendScore`, mutations, quick-add, CSV) -/

/-- `part_002` line 27: `blendScore(auto_score, manual_rating)` =
`Math.round(((manual_rating || 0) * 20) * 100) / 100` (auto score unused). -/
def blendScore (auto_score manual_rating : ℚ) : ℚ :=
  ((jsRound ((jsNumOr manual_rating 0 * 20) * 100) : ℚ)) / 100

/-- A `Partial<Hospital>` patch as sent by the part_002 mutators (only the
fields any of them ever set). `none` = key absent from the patch. -/
structure TblPatch where
  status : Option String := none
  manual_rating : Option ℚ := none
  score : Option ℚ := none
deriving DecidableEq

/-- `part_002` `setStatus(id, status)`: patches only `status`. -/
def setStatusPatch (st : String) : TblPatch := { status := some st }

/-- `part_002` `setRating(id, rating)`: patches `manual_rating` and `score`,
with `score = blendScore(0, rating)`. -/
def setRatingPatch (rating : ℚ) : TblPatch :=
  { manual_rating := some rating, score := some (blendScore 0 rating) }

/-- Quick-add form state (all inputs are plain strings; `telemedicine` is
the select value `"unknown" | "yes" | "no"`). -/
structure QuickAddForm where
  name : String := ""
  city : String := ""
  website : String := ""
  emails : String := ""
  phones : String := ""
  linkedin : String := ""
  address : String := ""
  telemedicine : String := "unknown"
  digital_services : String := ""
deriving DecidableEq

/-- An insert payload as built by `addHospital` / `importCSV`. -/
structure InsertPayload where
  name : String
  city : Option String
  website : Option String
  telemedicine : Option Bool
  emails : List String
  phones : List String
  linkedin : Option String
  address : Option String
  digital_services : Option String
  status : String
  manual_rating : ℚ
  score : ℚ
deriving DecidableEq

/-- `form.emails.split(",").map(s => s.trim()).filter(Boolean)`. -/
def splitCommaTrim (s : String) : List String :=
  ((jsSplit (fun c => c == ',') s).map jsTrim).filter (fun t => t ≠ "")

/-- `part_002` `addHospital()`: returns `none` when the trimmed name is
empty (the function returns without inserting), else the insert payload. -/
def addHospitalPayload (form : QuickAddForm) : Option InsertPayload :=
  if jsTrim form.name = "" then none
  else some {
    name := jsTrim form.name,
    city := jsStrOrNull form.city,
    website := jsStrOrNull form.website,
    emails := splitCommaTrim form.emails,
    phones := splitCommaTrim form.phones,
    linkedin := jsStrOrNull form.linkedin,
    address := jsStrOrNull form.address,
    telemedicine :=
      if form.telemedicine = "yes" then some true
      else if form.telemedicine = "no" then some false else none,
    digital_services := jsStrOrNull form.digital_services,
    status := "new",
    manual_rating := 0,
    score := 0 }

/-- One parsed CSV row (papaparse with `header: true`: every present cell is
a string; `none` = column absent).  `digitalServicesHeader` models the
`r["Digital Services"]` lookup. -/
structure CsvRow where
  name : Option String := none
  nameCap : Option String := none
  city : Option String := none
  cityCap : Option String := none
  website : Option String := none
  websiteCap : Option String := none
  telemedicine : Option String := none
  telemedicineCap : Option String := none
  telemedicine_usage : Option String := none
  emails : Option String := none
  emailCap : Option String := none
  email : Option String := none
  phones : Option String := none
  phoneCap : Option String := none
  linkedin : Option String := none
  linkedinCap : Option String := none
  address : Option String := none
  addressCap : Option String := none
  digital_services : Option String := none
  digitalServicesHeader : Option String := none
  digital_services_description : Option String := none
deriving DecidableEq

/-- `.split(/[;,]/).map(s => s.trim()).filter(Boolean)`. -/
def splitMulti (s : String) : List String :=
  ((jsSplit (fun c => c == ';' || c == ',') s).map jsTrim).filter (fun t => t ≠ "")

/-- `part_002` `importCSV` row mapping: `none` when the row is skipped
(`!r.name && !r.Name`), else the insert payload built for it.
`nameCap` models `r.Name`, `emailCap` models `r.Email`, etc. -/
def csvMapRow (r : CsvRow) : Option InsertPayload :=
  if !truthyS r.name && !truthyS r.nameCap then none
  else
    let teleRaw : Option String :=
      match r.telemedicine with
      | some s => some s
      | none =>
        match r.telemedicineCap with
        | some s => some s
        | none => r.telemedicine_usage
    some {
      name := jsTrim (jsStrOr r.name (jsStrOr r.nameCap "")),
      city := jsStrOr2Null r.city r.cityCap,
      website := jsStrOr2Null r.website r.websiteCap,
      telemedicine :=
        match teleRaw with
        | some s =>
          if jsStartsWith (jsToLower s) "y" then some true
          else if jsStartsWith (jsToLower s) "n" then some false else none
        | none => none,
      emails := splitMulti (jsStrOr r.emails (jsStrOr r.emailCap (jsStrOr r.email ""))),
      phones := splitMulti (jsStrOr r.phones (jsStrOr r.phoneCap "")),
      linkedin := jsStrOr2Null r.linkedin r.linkedinCap,
      address := jsStrOr2Null r.address r.addressCap,
      digital_services :=
        jsStrOr3Null r.digital_services r.digitalServicesHeader r.digital_services_description,
      status := "new",
      manual_rating := 0,
      score := 0 }

/-! ### route.ts : `PATCH /hospitals` handler -/

/-- The `HospitalUpdate` body type of `route.ts` (`Partial<{...}>`).  Each
field: outer `none` = key absent; for the nullable numeric fields the inner
`none` = JSON `null`. -/
structure HospitalUpdate where
  name : Option String := none
  status : Option String := none
  manual_rating : Option (Option ℚ) := none
  score : Option (Option ℚ) := none
deriving DecidableEq

/-- `Object.keys(updates).length` for a `HospitalUpdate`. -/
def HospitalUpdate.keysLength (u : HospitalUpdate) : Nat :=
  (if u.name.isSome then 1 else 0) + (if u.status.isSome then 1 else 0) +
  (if u.manual_rating.isSome then 1 else 0) + (if u.score.isSome then 1 else 0)

/-- `id: string | number`. -/
inductive JsId where
  | str (s : String)
  | num (n : ℚ)
deriving DecidableEq

/-- JS truthiness of an id (`""` and `0` are falsy). -/
def JsId.truthy : JsId → Bool
  | .str s => s ≠ ""
  | .num n => n ≠ 0

/-- A parsed request body (`{id?, updates?}`). -/
structure PatchBody where
  id : Option JsId := none
  updates : Option HospitalUpdate := none
deriving DecidableEq

/-- What `request.json()` produced: a parse failure, or a value (`none`
models a JSON `null` body, so `body?.id` is undefined). -/
inductive ParseOutcome where
  | parseError
  | ok (body : Option PatchBody)
deriving DecidableEq

/-- Outcome of one remote store call: success, an `error` field returned
(with its optional `.message`), or a thrown exception (with the message the
code extracts via `e?.message ?? String(e)`). -/
inductive StoreOutcome where
  | ok
  | err (msg : Option String)
  | thrown (msg : String)
deriving DecidableEq

/-- HTTP response as far as the claims are concerned: status code plus the
`error` field of the JSON body (`none` on success responses). -/
structure RouteResponse where
  status : Nat
  error : Option String
deriving DecidableEq

/-- The validation predicate of `route.ts` line 37, positively: the request
reaches the store update iff `!(!id || !updates || keys(updates).length === 0)`. -/
def patchPasses (body : Option PatchBody) : Bool :=
  match body with
  | some b =>
    match b.id, b.updates with
    | some i, some u => i.truthy && u.keysLength != 0
    | _, _ => false
  | none => false

/-- `route.ts` `PATCH` handler (first document in the file, the one with the
guarded JSON parse).  `clientInit` is the outcome of `getSupabaseServer()`
(`some m` = it threw with message `m`); `parse` the outcome of
`request.json()`; `store` the outcome of the chained update call.  Returns
the response and, when a store update was issued, the `(id, updates)` pair
forwarded verbatim to the store. -/
def patchHandler (clientInit : Option String) (parse : ParseOutcome)
    (store : StoreOutcome) : RouteResponse × Option (JsId × HospitalUpdate) :=
  match clientInit with
  | some m => (⟨500, some m⟩, none)
  | none =>
    match parse with
    | .parseError => (⟨400, some "Invalid JSON body"⟩, none)
    | .ok body =>
      match body with
      | some b =>
        match b.id, b.updates with
        | some i, some u =>
          if i.truthy && u.keysLength != 0 then
            match store with
            | .ok => (⟨200, none⟩, some (i, u))
            | .err m => (⟨500, some (m.getD "null")⟩, some (i, u))
            | .thrown m => (⟨500, some m⟩, some (i, u))
          else (⟨400, some "Missing id or updates"⟩, none)
        | _, _ => (⟨400, some "Missing id or updates"⟩, none)
      | none => (⟨400, some "Missing id or updates"⟩, none)

/-- A `hospitals` table row restricted to the columns a `HospitalUpdate`
can touch. -/
structure DbRow where
  id : JsId
  name : Option String := none
  status : Option String := none
  manual_rating : Option ℚ := none
  score : Option ℚ := none
deriving DecidableEq

/-- Database application of a forwarded update: every key present in the
update overwrites the row's column (a `null` value writes NULL). -/
def applyUpdate (u : HospitalUpdate) (h : DbRow) : DbRow :=
  { h with
    name := match u.name with | some v => some v | none => h.name,
    status := match u.status with | some v => some v | none => h.status,
    manual_rating := match u.manual_rating with | some v => v | none => h.manual_rating,
    score := match u.score with | some v => v | none => h.score }

/-! ### page.tsx : dashboard state, load, totals, toggles -/

/-- The `Hospital` row type of `page.tsx` (all fields optional).  For
`cold_emailed` the outer `Option` is key presence (`hasOwnProperty`), the
inner one nullability. -/
structure PHospital where
  id : String
  name : Option String := none
  city : Option String := none
  website : Option String := none
  telemedicine : Option Bool := none
  emails : Option (List String) := none
  phones : Option (List String) := none
  address : Option String := none
  status : Option String := none
  cold_emailed : Option (Option Bool) := none
  created_at : Option String := none
  updated_at : Option String := none
deriving DecidableEq

inductive ToastKind where
  | success
  | error
  | info
deriving DecidableEq

/-- One toast pushed by `push({type, text})`. -/
structure Toast where
  kind : ToastKind
  text : String
deriving DecidableEq

/-- Result of one mutation handler run: the row cache at the point where
the handler finished its own writes (before any triggered reload lands),
the toasts it pushed, how many `hospitals` update calls and `cold_emails`
audit-insert calls it made, and whether it invoked `fetchRows()`. -/
structure MutResult where
  rows : List PHospital
  toasts : List Toast
  updateCalls : Nat
  auditCalls : Nat
  reloadTriggered : Bool
deriving DecidableEq

/-- `page.tsx` line 286: `target = currentStatus === 'closed' ? 'new' : 'closed'`. -/
def toggleStatusTarget (currentStatus : Option String) : String :=
  if currentStatus = some "closed" then "new" else "closed"

/-- `prevRows.map(r => r.id === id ? { ...r, status: st } : r)`. -/
def setStatusRows (rows : List PHospital) (id : String) (st : Option String) :
    List PHospital :=
  rows.map (fun r => if r.id = id then { r with status := st } else r)

/-- `rows.find(r => r.id === id)?.status ?? null`. -/
def statusPrev (rows : List PHospital) (id : String) : Option String :=
  (rows.find? (fun r => r.id = id)).bind (fun r => r.status)

/-- `page.tsx` `toggleStatus(id, currentStatus)` with the remote update's
outcome passed explicitly. -/
def toggleStatus (rows : List PHospital) (id : String)
    (currentStatus : Option String) (remote : StoreOutcome) : MutResult :=
  let target := toggleStatusTarget currentStatus
  let prev := statusPrev rows id
  let optimistic := setStatusRows rows id (some target)
  match remote with
  | .ok =>
    { rows := optimistic, toasts := [⟨.success, "Status updated"⟩],
      updateCalls := 1, auditCalls := 0, reloadTriggered := false }
  | .err m =>
    { rows := setStatusRows optimistic id prev,
      toasts := [⟨.error, "Failed to update status: " ++ m.getD "unknown"⟩],
      updateCalls := 1, auditCalls := 0, reloadTriggered := true }
  | .thrown m =>
    { rows := setStatusRows optimistic id prev,
      toasts := [⟨.error, "Failed to update status: " ++ m⟩],
      updateCalls := 1, auditCalls := 0, reloadTriggered := true }

/-- `prevRows.map(r => r.id === id ? { ...r, cold_emailed: b } : r)` (the
write always stores a present boolean). -/
def setColdRows (rows : List PHospital) (id : String) (b : Bool) : List PHospital :=
  rows.map (fun r => if r.id = id then { r with cold_emailed := some (some b) } else r)

/-- `rows.find(r => r.id === id)?.cold_emailed ?? false` — an absent row,
absent key or null value all coerce to `false`. -/
def coldPrev (rows : List PHospital) (id : String) : Bool :=
  match (rows.find? (fun r => r.id = id)).bind (fun r => r.cold_emailed) with
  | some (some b) => b
  | _ => false

/-- JS `!current` for `current?: boolean | null`. -/
def coldTarget (current : Option (Option Bool)) : Bool :=
  if current = some (some true) then false else true

/-- `page.tsx` `toggleColdEmail(id, current)`.  `flag` is
`hasColdEmailedColumn`; `remote` the outcome of the update call.  On the
success path the audit insert into `cold_emails` is attempted once and its
outcome is swallowed, so it is counted but takes no argument. -/
def toggleColdEmail (flag : Bool) (rows : List PHospital) (id : String)
    (current : Option (Option Bool)) (remote : StoreOutcome) : MutResult :=
  if flag = false then
    { rows := rows,
      toasts := [⟨.error, "cold_emailed column missing — please add it to DB."⟩],
      updateCalls := 0, auditCalls := 0, reloadTriggered := false }
  else
    let target := coldTarget current
    let prev := coldPrev rows id
    let optimistic := setColdRows rows id target
    match remote with
    | .ok =>
      { rows := optimistic,
        toasts := [⟨.success, if target then "Marked cold-emailed" else "Unmarked cold-emailed"⟩],
        updateCalls := 1, auditCalls := 1, reloadTriggered := false }
    | .err m =>
      { rows := setColdRows optimistic id prev,
        toasts := [⟨.error, "Failed to update cold-emailed: " ++ m.getD "unknown"⟩],
        updateCalls := 1, auditCalls := 0, reloadTriggered := true }
    | .thrown m =>
      { rows := setColdRows optimistic id prev,
        toasts := [⟨.error, "Failed to update cold-emailed: " ++ m⟩],
        updateCalls := 1, auditCalls := 0, reloadTriggered := true }

/-- `Object.keys(selected).filter(k => selected[k])`. -/
def selectedIds (selected : List (String × Bool)) : List String :=
  (selected.filter (fun p => p.2)).map (fun p => p.1)

/-- `page.tsx` `bulkToggleColdEmail(markAs)`. -/
def bulkToggleColdEmail (flag : Bool) (selected : List (String × Bool))
    (rows : List PHospital) (markAs : Bool) (remote : StoreOutcome) : MutResult :=
  if flag = false then
    { rows := rows,
      toasts := [⟨.error, "cold_emailed column missing. Cannot bulk update."⟩],
      updateCalls := 0, auditCalls := 0, reloadTriggered := false }
  else
    let ids := selectedIds selected
    if ids.isEmpty then
      { rows := rows, toasts := [⟨.info, "Select rows first"⟩],
        updateCalls := 0, auditCalls := 0, reloadTriggered := false }
    else
      let optimistic :=
        rows.map (fun r => if ids.contains r.id then { r with cold_emailed := some (some markAs) } else r)
      match remote with
      | .ok =>
        { rows := optimistic,
          toasts := [⟨.success, toString ids.length ++ " rows updated"⟩],
          updateCalls := 1, auditCalls := 1, reloadTriggered := false }
      | .err m =>
        { rows := optimistic,
          toasts := [⟨.error, "Failed to update cold-emailed: " ++ m.getD "unknown"⟩],
          updateCalls := 1, auditCalls := 0, reloadTriggered := true }
      | .thrown _ =>
        { rows := optimistic,
          toasts := [⟨.error, "Failed to update selected rows. See console."⟩],
          updateCalls := 1, auditCalls := 0, reloadTriggered := true }

/-- Outcome of the select in `fetchRows` (`thrown` covers both a thrown
fetch and a failed client initialization — the code shows one toast for
both). -/
inductive FetchOutcome where
  | ok (data : List PHospital)
  | err (msg : Option String)
  | thrown
deriving DecidableEq

/-- Result of one `fetchRows()` run: the new cache, the new
`hasColdEmailedColumn` flag, pushed toasts, and the number of select calls
issued (always exactly one — there is no retry loop). -/
structure LoadResult where
  rows : List PHospital
  hasColdEmailedColumn : Bool
  toasts : List Toast
  fetchCalls : Nat
deriving DecidableEq

/-- `Object.prototype.hasOwnProperty.call(r, 'cold_emailed')`. -/
def hasColdKey (r : PHospital) : Bool := r.cold_emailed.isSome

/-- `page.tsx` `fetchRows()` over previous cache `rows0` and flag `flag0`. -/
def fetchRows (rows0 : List PHospital) (flag0 : Bool) (out : FetchOutcome) : LoadResult :=
  match out with
  | .ok data =>
    { rows := data, hasColdEmailedColumn := data.any hasColdKey,
      toasts := [], fetchCalls := 1 }
  | .err m =>
    { rows := rows0, hasColdEmailedColumn := flag0,
      toasts := [⟨.error, "Failed to fetch rows: " ++ m.getD "unknown"⟩], fetchCalls := 1 }
  | .thrown =>
    { rows := rows0, hasColdEmailedColumn := flag0,
      toasts := [⟨.error, "Failed to fetch rows. See console."⟩], fetchCalls := 1 }

/-- The aggregate KPI counters of `page.tsx` (`totals` memo). -/
structure Totals where
  total : Nat
  closed : Nat
  openCount : Nat
  telemed : Nat
  emailed : Nat
deriving DecidableEq

/-- `page.tsx` lines 273-280 (`openCount` models `open`). -/
def totals (rows : List PHospital) (flag : Bool) : Totals :=
  let total := rows.length
  let closed := (rows.filter (fun r => r.status == some "closed" || r.status == some "reached")).length
  { total := total,
    closed := closed,
    openCount := total - closed,
    telemed := (rows.filter (fun r => r.telemedicine == some true)).length,
    emailed := if flag then (rows.filter (fun r => r.cold_emailed == some (some true))).length else 0 }

/-- Spec-side definition, for the refinement conjunct of the score claims:
`round(x, 2)` — rounding to two decimal places, with JS `Math.round`
semantics for the half-way case. -/
def specRound2 (x : ℚ) : ℚ := (jsRound (x * 100) : ℚ) / 100

/-! ### Helper lemmas -/

theorem jsRound_intCast (m : ℤ) : jsRound (m : ℚ) = m := by
  unfold jsRound
  rw [add_comm, Int.floor_add_int]
  norm_num

theorem blendScore_natCast (n : ℕ) : blendScore 0 (n : ℚ) = 20 * n := by
  unfold blendScore jsNumOr
  have h1 : ((if (n : ℚ) = 0 then 0 else (n : ℚ)) * 20) * 100 = ((2000 * n : ℤ) : ℚ) := by
    by_cases h : (n : ℚ) = 0
    · simp [h]
    · rw [if_neg h]
      push_cast
      ring
  rw [h1, jsRound_intCast]
  push_cast
  ring

theorem blendScore_zero : blendScore 0 0 = 0 := by
  have h := blendScore_natCast 0
  simpa using h

theorem setStatusRows_cons (r : PHospital) (rs : List PHospital) (id : String)
    (st : Option String) :
    setStatusRows (r :: rs) id st =
      (if r.id = id then { r with status := st } else r) :: setStatusRows rs id st := rfl

theorem setStatusRows_of_forall_ne (rows : List PHospital) (id : String)
    (st : Option String) (h : ∀ r ∈ rows, r.id ≠ id) : setStatusRows rows id st = rows := by
  induction rows with
  | nil => rfl
  | cons r rs ih =>
    have hr : r.id ≠ id := h r (by simp)
    have hrs : ∀ x ∈ rs, x.id ≠ id := fun x hx => h x (by simp [hx])
    rw [setStatusRows_cons, if_neg hr, ih hrs]

theorem setStatusRows_revert (rows : List PHospital) (id : String) (a : Option String)
    (hnd : (rows.map (fun r => r.id)).Nodup) :
    setStatusRows (setStatusRows rows id a) id (statusPrev rows id) = rows := by
  induction rows with
  | nil => rfl
  | cons r rs ih =>
    simp only [List.map_cons, List.nodup_cons, List.mem_map] at hnd
    obtain ⟨hni, hnd'⟩ := hnd
    by_cases hr : r.id = id
    · have hrs : ∀ x ∈ rs, x.id ≠ id := by
        intro x hx hxid
        exact hni ⟨x, hx, by rw [hxid, hr]⟩
      have hprev : statusPrev (r :: rs) id = r.status := by
        unfold statusPrev
        rw [List.find?_cons_of_pos _ (by simp [hr])]
        rfl
      calc setStatusRows (setStatusRows (r :: rs) id a) id (statusPrev (r :: rs) id)
          = setStatusRows ({ r with status := a } :: rs) id (statusPrev (r :: rs) id) := by
            rw [setStatusRows_cons, if_pos hr, setStatusRows_of_forall_ne rs id a hrs]
        _ = { r with status := statusPrev (r :: rs) id } ::
              setStatusRows rs id (statusPrev (r :: rs) id) := by
            rw [setStatusRows_cons, if_pos hr]
        _ = r :: rs := by
            rw [hprev, setStatusRows_of_forall_ne rs id _ hrs]
    · have h2 : statusPrev (r :: rs) id = statusPrev rs id := by
        unfold statusPrev
        rw [List.find?_cons_of_neg _ (by simp [hr])]
      rw [setStatusRows_cons, if_neg hr, setStatusRows_cons, if_neg hr, h2, ih hnd']

theorem setColdRows_cons (r : PHospital) (rs : List PHospital) (id : String) (b : Bool) :
    setColdRows (r :: rs) id b =
      (if r.id = id then { r with cold_emailed := some (some b) } else r) ::
        setColdRows rs id b := rfl

theorem setColdRows_of_forall_ne (rows : List PHospital) (id : String)
    (b : Bool) (h : ∀ r ∈ rows, r.id ≠ id) : setColdRows rows id b = rows := by
  induction rows with
  | nil => rfl
  | cons r rs ih =>
    have hr : r.id ≠ id := h r (by simp)
    have hrs : ∀ x ∈ rs, x.id ≠ id := fun x hx => h x (by simp [hx])
    rw [setColdRows_cons, if_neg hr, ih hrs]

theorem setColdRows_revert (rows : List PHospital) (id : String) (t : Bool)
    (hnd : (rows.map (fun r => r.id)).Nodup)
    (hb : ∀ r ∈ rows, r.id = id → ∃ b, r.cold_emailed = some (some b)) :
    setColdRows (setColdRows rows id t) id (coldPrev rows id) = rows := by
  induction rows with
  | nil => rfl
  | cons r rs ih =>
    simp only [List.map_cons, List.nodup_cons, List.mem_map] at hnd
    obtain ⟨hni, hnd'⟩ := hnd
    by_cases hr : r.id = id
    · have hrs : ∀ x ∈ rs, x.id ≠ id := by
        intro x hx hxid
        exact hni ⟨x, hx, by rw [hxid, hr]⟩
      obtain ⟨b, hbb⟩ := hb r (by simp) hr
      have hprev : coldPrev (r :: rs) id = b := by
        unfold coldPrev
        rw [List.find?_cons_of_pos _ (by simp [hr])]
        simp [hbb]
      calc setColdRows (setColdRows (r :: rs) id t) id (coldPrev (r :: rs) id)
          = setColdRows ({ r with cold_emailed := some (some t) } :: rs) id
              (coldPrev (r :: rs) id) := by
            rw [setColdRows_cons, if_pos hr, setColdRows_of_forall_ne rs id t hrs]
        _ = { r with cold_emailed := some (some (coldPrev (r :: rs) id)) } ::
              setColdRows rs id (coldPrev (r :: rs) id) := by
            rw [setColdRows_cons, if_pos hr]
        _ = r :: rs := by
            rw [hprev, ← hbb, setColdRows_of_forall_ne rs id _ hrs]
    · have h2 : coldPrev (r :: rs) id = coldPrev rs id := by
        unfold coldPrev
        rw [List.find?_cons_of_neg _ (by simp [hr])]
      have hb' : ∀ x ∈ rs, x.id = id → ∃ b, x.cold_emailed = some (some b) := by
        intro x hx
        exact hb x (by simp [hx])
      rw [setColdRows_cons, if_neg hr, setColdRows_cons, if_neg hr, h2, ih hnd' hb']

/-! ### Claims -/

/-- C4: a `cold_emailed` mutation (single-row or bulk) invoked while the
schema-feature flag `hasColdEmailedColumn` is false performs zero store
calls (no update, no audit insert, no triggered reload/select), leaves the
cache unchanged, and pushes exactly one error toast. -/
theorem cold_mutation_guard_no_store_calls (rows : List PHospital) (id : String)
    (current : Option (Option Bool)) (remote : StoreOutcome)
    (selected : List (String × Bool)) (markAs : Bool) :
    toggleColdEmail false rows id current remote =
      ⟨rows, [⟨.error, "cold_emailed column missing — please add it to DB."⟩], 0, 0, false⟩ ∧
    bulkToggleColdEmail false selected rows markAs remote =
      ⟨rows, [⟨.error, "cold_emailed column missing. Cannot bulk update."⟩], 0, 0, false⟩ :=
  ⟨rfl, rfl⟩

/-- C5: `fetchRows` (the `load()` of the spec) is atomic with respect to
failure — on a store error or a thrown fetch, the previous cache and the
schema-feature flag are retained unchanged and an error toast is pushed;
exactly one select call is issued (no retry); on success the cache is
replaced wholesale by the fetched snapshot and the flag is recomputed from
it. -/
theorem fetchRows_atomic (rows0 : List PHospital) (flag0 : Bool)
    (m : Option String) (data : List PHospital) :
    fetchRows rows0 flag0 (.err m) =
      ⟨rows0, flag0, [⟨.error, "Failed to fetch rows: " ++ m.getD "unknown"⟩], 1⟩ ∧
    fetchRows rows0 flag0 .thrown =
      ⟨rows0, flag0, [⟨.error, "Failed to fetch rows. See console."⟩], 1⟩ ∧
    fetchRows rows0 flag0 (.ok data) = ⟨data, data.any hasColdKey, [], 1⟩ :=
  ⟨rfl, rfl, rfl⟩

/-- C8: the aggregate counters are a pure function of the cache and the
schema-feature flag — `closed` counts exactly the rows whose status is
`"closed"` or `"reached"`, `open + closed = total` (so `open = total −
closed` without truncation), `telemed` counts the rows with telemedicine
strictly true, and `emailed` is 0 whenever the flag is false regardless of
the rows. -/
theorem totals_characterization (rows : List PHospital) (flag : Bool) :
    (totals rows flag).total = rows.length ∧
    (totals rows flag).closed =
      rows.countP (fun r => r.status = some "closed" ∨ r.status = some "reached") ∧
    (totals rows flag).openCount + (totals rows flag).closed = rows.length ∧
    (totals rows flag).telemed = rows.countP (fun r => r.telemedicine = some true) ∧
    (totals rows false).emailed = 0 ∧
    (totals rows true).emailed = rows.countP (fun r => r.cold_emailed = some (some true)) := by
  refine ⟨rfl, ?_, ?_, ?_, rfl, ?_⟩
  · have hp : (fun r : PHospital =>
          (decide (r.status = some "closed") || decide (r.status = some "reached")))
        = fun r => r.status == some "closed" || r.status == some "reached" := by
      funext r
      by_cases h1 : r.status = some "closed" <;> by_cases h2 : r.status = some "reached" <;>
        simp [h1, h2]
    simp [totals, List.countP_eq_length_filter, hp]
  · have hle := List.length_filter_le
      (fun r : PHospital => r.status == some "closed" || r.status == some "reached") rows
    simp only [totals]
    omega
  · have hp : (fun r : PHospital => decide (r.telemedicine = some true))
        = fun r => r.telemedicine == some true := by
      funext r
      by_cases h : r.telemedicine = some true <;> simp [h]
    simp [totals, List.countP_eq_length_filter, hp]
  · have hp : (fun r : PHospital => decide (r.cold_emailed = some (some true)))
        = fun r => r.cold_emailed == some (some true) := by
      funext r
      by_cases h : r.cold_emailed = some (some true) <;> simp [h]
    simp [totals, List.countP_eq_length_filter, hp]

/-- C10: a successful load whose fetched snapshot is empty sets the
schema-feature flag to false (presence is detected by scanning fetched
rows), so on an empty table every subsequent cold-email mutation — single
or bulk — is rejected with the configuration error and performs no store
call, whatever the remote schema actually contains. -/
theorem empty_load_disables_cold_email (rows0 : List PHospital) (flag0 : Bool)
    (id : String) (current : Option (Option Bool)) (remote : StoreOutcome)
    (selected : List (String × Bool)) (markAs : Bool) :
    (fetchRows rows0 flag0 (.ok [])).hasColdEmailedColumn = false ∧
    (fetchRows rows0 flag0 (.ok [])).rows = [] ∧
    toggleColdEmail (fetchRows rows0 flag0 (.ok [])).hasColdEmailedColumn
        (fetchRows rows0 flag0 (.ok [])).rows id current remote =
      ⟨[], [⟨.error, "cold_emailed column missing — please add it to DB."⟩], 0, 0, false⟩ ∧
    bulkToggleColdEmail (fetchRows rows0 flag0 (.ok [])).hasColdEmailedColumn selected
        (fetchRows rows0 flag0 (.ok [])).rows markAs remote =
      ⟨[], [⟨.error, "cold_emailed column missing. Cannot bulk update."⟩], 0, 0, false⟩ :=
  ⟨rfl, rfl, rfl, rfl⟩

/-- C2: after the rating mutation `setRating(id, r)`, the patched score is
exactly `round(r * 20, 2)` (the spec-side rounding `specRound2`), and for
every integer rating `n ≤ 5` the patched score is exactly `20 * n`, which
lies in `0..100`. -/
theorem setRating_score_correct (r : ℚ) (n : ℕ) (h : n ≤ 5) :
    (setRatingPatch r).score = some (specRound2 (r * 20)) ∧
    (setRatingPatch r).manual_rating = some r ∧
    (setRatingPatch (n : ℚ)).score = some (20 * (n : ℚ)) ∧
    (0 : ℚ) ≤ 20 * (n : ℚ) ∧ 20 * (n : ℚ) ≤ 100 := by
  refine ⟨?_, rfl, ?_, by positivity, ?_⟩
  · simp only [setRatingPatch, blendScore, specRound2, jsNumOr, Option.some.injEq]
    by_cases hr : r = 0 <;> simp [hr]
  · simp [setRatingPatch, blendScore_natCast n]
  · have hq : (n : ℚ) ≤ 5 := by exact_mod_cast h
    linarith

/-- Witness for C2 at `r = 1/2`, `n = 3`. -/
theorem setRating_score_correct_witness :
    (setRatingPatch (1/2)).score = some (specRound2 ((1/2) * 20)) ∧
    (setRatingPatch (1/2)).manual_rating = some (1/2) ∧
    (setRatingPatch ((3 : ℕ) : ℚ)).score = some (20 * ((3 : ℕ) : ℚ)) ∧
    (0 : ℚ) ≤ 20 * ((3 : ℕ) : ℚ) ∧ 20 * ((3 : ℕ) : ℚ) ≤ 100 :=
  setRating_score_correct (1/2) 3 (by norm_num)

/-- C7 (counterexample): a request whose body is not parseable as JSON can
still be answered with a 500 — `getSupabaseServer()` is called before the
body is parsed, and when it throws (missing env configuration) the outer
catch returns 500 regardless of the body. -/
theorem malformed_json_can_return_500 :
    (patchHandler (some "Missing SUPABASE_URL (set NEXT_PUBLIC_SUPABASE_URL or SUPABASE_URL).")
        .parseError .ok).1.status = 500 ∧
    (patchHandler (some "Missing SUPABASE_URL (set NEXT_PUBLIC_SUPABASE_URL or SUPABASE_URL).")
        .parseError .ok).1 ≠ ⟨400, some "Invalid JSON body"⟩ :=
  ⟨rfl, by decide⟩

/-- C7 (amended): provided the server client initializes (required env
present), every PATCH request whose body is not parseable as JSON is
answered 400 `{error: "Invalid JSON body"}` with no store call — never a
500 — whatever the store would have answered. -/
theorem malformed_json_400 (st : StoreOutcome) :
    patchHandler none .parseError st = (⟨400, some "Invalid JSON body"⟩, none) ∧
    (patchHandler none .parseError st).1.status ≠ 500 :=
  ⟨rfl, by simp [patchHandler]⟩

/-- C9: CSV import maps the multi-valued fields of each imported row by
splitting on `;` or `,`, trimming each part and dropping empty parts; in
particular a row with `emails: "a@x.com;b@x.com"` maps to an insert payload
with `emails = ["a@x.com", "b@x.com"]`. -/
theorem csv_multivalue_mapping (r : CsvRow) (p : InsertPayload)
    (h : csvMapRow r = some p) :
    p.emails = splitMulti (jsStrOr r.emails (jsStrOr r.emailCap (jsStrOr r.email ""))) ∧
    p.phones = splitMulti (jsStrOr r.phones (jsStrOr r.phoneCap "")) ∧
    splitMulti "a@x.com;b@x.com" = ["a@x.com", "b@x.com"] ∧
    splitMulti " a@x.com ;, b@x.com " = ["a@x.com", "b@x.com"] ∧
    (csvMapRow { name := some "General Hospital", emails := some "a@x.com;b@x.com" }).map
      InsertPayload.emails = some ["a@x.com", "b@x.com"] := by
  unfold csvMapRow at h
  split at h
  · simp at h
  · obtain rfl := Option.some.inj h
    exact ⟨rfl, rfl, by decide, by decide, by decide⟩

/-- Witness for C9 at a concrete CSV row. -/
theorem csv_multivalue_mapping_witness :
    (⟨"General Hospital", none, none, none, ["a@x.com", "b@x.com"], [], none, none, none,
        "new", 0, 0⟩ : InsertPayload).emails =
      splitMulti (jsStrOr (some "a@x.com;b@x.com") (jsStrOr none (jsStrOr none ""))) ∧
    (⟨"General Hospital", none, none, none, ["a@x.com", "b@x.com"], [], none, none, none,
        "new", 0, 0⟩ : InsertPayload).phones =
      splitMulti (jsStrOr none (jsStrOr none "")) ∧
    splitMulti "a@x.com;b@x.com" = ["a@x.com", "b@x.com"] ∧
    splitMulti " a@x.com ;, b@x.com " = ["a@x.com", "b@x.com"] ∧
    (csvMapRow { name := some "General Hospital", emails := some "a@x.com;b@x.com" }).map
      InsertPayload.emails = some ["a@x.com", "b@x.com"] :=
  csv_multivalue_mapping { name := some "General Hospital", emails := some "a@x.com;b@x.com" }
    ⟨"General Hospital", none, none, none, ["a@x.com", "b@x.com"], [], none, none, none,
      "new", 0, 0⟩ (by decide)

/-- Unfolding of `patchHandler` at a well-formed body (client up, parse ok,
`id` and `updates` keys both present). -/
theorem patchHandler_ok_some (i : JsId) (u : HospitalUpdate) (st : StoreOutcome) :
    patchHandler none (.ok (some ⟨some i, some u⟩)) st =
      if i.truthy && u.keysLength != 0 then
        match st with
        | .ok => (⟨200, none⟩, some (i, u))
        | .err m => (⟨500, some (m.getD "null")⟩, some (i, u))
        | .thrown m => (⟨500, some m⟩, some (i, u))
      else (⟨400, some "Missing id or updates"⟩, none) := rfl

/-- C1 (counterexample): the HTTP PATCH endpoint is a mutation path that
changes a record's score without deriving it from `manual_rating`: the body
`{id: "h1", updates: {score: 42}}` passes validation, the update forwarded
to the store carries `score` but no `manual_rating`, and applied to a row
with `manual_rating = 0, score = 0` it yields `score = 42` — changed, and
different from `blendScore(0, manual_rating) = 0`. -/
theorem patch_score_independent_mutation :
    (patchHandler none (.ok (some ⟨some (.str "h1"), some { score := some (some 42) }⟩))
        .ok).1.status = 200 ∧
    (patchHandler none (.ok (some ⟨some (.str "h1"), some { score := some (some 42) }⟩))
        .ok).2 = some (.str "h1", { score := some (some 42) }) ∧
    ({ score := some (some 42) } : HospitalUpdate).manual_rating = none ∧
    (applyUpdate { score := some (some 42) }
        { id := .str "h1", manual_rating := some 0, score := some 0 }).score = some 42 ∧
    (applyUpdate { score := some (some 42) }
        { id := .str "h1", manual_rating := some 0, score := some 0 }).manual_rating = some 0 ∧
    (applyUpdate { score := some (some 42) }
        { id := .str "h1", manual_rating := some 0, score := some 0 }).score ≠
      ({ id := .str "h1", manual_rating := some 0, score := some 0 } : DbRow).score ∧
    (applyUpdate { score := some (some 42) }
        { id := .str "h1", manual_rating := some 0, score := some 0 }).score ≠
      some (blendScore 0 0) := by
  refine ⟨rfl, rfl, rfl, rfl, rfl, by decide, ?_⟩
  simp [applyUpdate, blendScore_zero]

/-- C1 (amended): every *client-side* mutation path derives `score` from
`manual_rating` — `setStatus` never touches score, `setRating` writes
`blendScore(0, r)` together with `manual_rating = r`, and the quick-add and
CSV-import insert payloads carry `score = blendScore(0, manual_rating)`;
the HTTP PATCH endpoint alone (see the counterexample) forwards arbitrary
updates and so can set `score` independently. -/
theorem client_mutations_derive_score :
    (∀ st, (setStatusPatch st).score = none ∧ (setStatusPatch st).manual_rating = none) ∧
    (∀ r, (setRatingPatch r).score = some (blendScore 0 r) ∧
      (setRatingPatch r).manual_rating = some r) ∧
    (∀ form p, addHospitalPayload form = some p →
      p.score = blendScore 0 p.manual_rating) ∧
    (∀ row p, csvMapRow row = some p → p.score = blendScore 0 p.manual_rating) := by
  refine ⟨fun st => ⟨rfl, rfl⟩, fun r => ⟨rfl, rfl⟩, ?_, ?_⟩
  · intro form p h
    unfold addHospitalPayload at h
    split at h
    · simp at h
    · obtain rfl := Option.some.inj h
      exact blendScore_zero.symm
  · intro row p h
    unfold csvMapRow at h
    split at h
    · simp at h
    · obtain rfl := Option.some.inj h
      exact blendScore_zero.symm

/-- Witness for the amended C1 at concrete inputs. -/
theorem client_mutations_derive_score_witness :
    ((setStatusPatch "closed").score = none ∧ (setStatusPatch "closed").manual_rating = none) ∧
    ((setRatingPatch 4).score = some (blendScore 0 4) ∧
      (setRatingPatch 4).manual_rating = some 4) ∧
    (⟨"St Mary", none, none, none, [], [], none, none, none, "new", 0, 0⟩ :
        InsertPayload).score =
      blendScore 0 (⟨"St Mary", none, none, none, [], [], none, none, none, "new", 0, 0⟩ :
        InsertPayload).manual_rating ∧
    (⟨"CSV Hospital", none, none, none, [], [], none, none, none, "new", 0, 0⟩ :
        InsertPayload).score =
      blendScore 0 (⟨"CSV Hospital", none, none, none, [], [], none, none, none, "new", 0, 0⟩ :
        InsertPayload).manual_rating :=
  ⟨client_mutations_derive_score.1 "closed",
   client_mutations_derive_score.2.1 4,
   client_mutations_derive_score.2.2.1 { name := " St Mary " }
     ⟨"St Mary", none, none, none, [], [], none, none, none, "new", 0, 0⟩ (by decide),
   client_mutations_derive_score.2.2.2 { name := some "CSV Hospital" }
     ⟨"CSV Hospital", none, none, none, [], [], none, none, none, "new", 0, 0⟩ (by decide)⟩

/-- C3 (counterexample): the cold-email toggle's failure rollback does not
restore the pre-mutation value when the row's `cold_emailed` was null — the
revert writes `?? false`, so a row with `cold_emailed = null` comes back as
`cold_emailed = false`, not its pre-mutation value. -/
theorem cold_rollback_not_pre_mutation_value :
    (toggleColdEmail true [{ id := "a", cold_emailed := some none }] "a" (some none)
        (.err (some "boom"))).rows =
      [{ id := "a", cold_emailed := some (some false) }] ∧
    (toggleColdEmail true [{ id := "a", cold_emailed := some none }] "a" (some none)
        (.err (some "boom"))).rows ≠ [{ id := "a", cold_emailed := some none }] ∧
    (toggleColdEmail true [{ id := "a", cold_emailed := some none }] "a" (some none)
        (.err (some "boom"))).reloadTriggered = true := by
  decide

/-- C3 (amended): for a failed single-row patch (status toggle, or
cold-email toggle with the flag on) — remote error or thrown — the cache is
reverted to its pre-mutation state, an error toast containing the failure
message is pushed, and a full reload is triggered; provided cache ids are
unique and, for the cold-email toggle, every row with the targeted id holds
a present boolean `cold_emailed` (when it is null or the key is absent the
revert writes `false` instead of the original value — see the
counterexample). -/
theorem failed_single_row_patch_rolls_back
    (rows : List PHospital) (id : String) (cur : Option String)
    (curCold : Option (Option Bool)) (m : Option String) (tm : String)
    (hnd : (rows.map (fun r => r.id)).Nodup)
    (hb : ∀ r ∈ rows, r.id = id → ∃ b, r.cold_emailed = some (some b)) :
    (toggleStatus rows id cur (.err m)).rows = rows ∧
    (toggleStatus rows id cur (.err m)).toasts =
      [⟨.error, "Failed to update status: " ++ m.getD "unknown"⟩] ∧
    (toggleStatus rows id cur (.err m)).reloadTriggered = true ∧
    (toggleStatus rows id cur (.thrown tm)).rows = rows ∧
    (toggleStatus rows id cur (.thrown tm)).toasts =
      [⟨.error, "Failed to update status: " ++ tm⟩] ∧
    (toggleStatus rows id cur (.thrown tm)).reloadTriggered = true ∧
    (toggleColdEmail true rows id curCold (.err m)).rows = rows ∧
    (toggleColdEmail true rows id curCold (.err m)).toasts =
      [⟨.error, "Failed to update cold-emailed: " ++ m.getD "unknown"⟩] ∧
    (toggleColdEmail true rows id curCold (.err m)).reloadTriggered = true ∧
    (toggleColdEmail true rows id curCold (.thrown tm)).rows = rows ∧
    (toggleColdEmail true rows id curCold (.thrown tm)).toasts =
      [⟨.error, "Failed to update cold-emailed: " ++ tm⟩] ∧
    (toggleColdEmail true rows id curCold (.thrown tm)).reloadTriggered = true := by
  have hs := setStatusRows_revert rows id (some (toggleStatusTarget cur)) hnd
  have hc := setColdRows_revert rows id (coldTarget curCold) hnd hb
  exact ⟨hs, rfl, rfl, hs, rfl, rfl, hc, rfl, rfl, hc, rfl, rfl⟩

/-- Witness for the amended C3 at a one-row cache with a boolean
`cold_emailed`. -/
theorem failed_single_row_patch_rolls_back_witness :
    (toggleStatus [{ id := "a", status := some "new", cold_emailed := some (some false) }]
        "a" (some "new") (.err (some "boom"))).rows =
      [{ id := "a", status := some "new", cold_emailed := some (some false) }] ∧
    (toggleStatus [{ id := "a", status := some "new", cold_emailed := some (some false) }]
        "a" (some "new") (.err (some "boom"))).toasts =
      [⟨.error, "Failed to update status: " ++ (some "boom").getD "unknown"⟩] ∧
    (toggleStatus [{ id := "a", status := some "new", cold_emailed := some (some false) }]
        "a" (some "new") (.err (some "boom"))).reloadTriggered = true ∧
    (toggleStatus [{ id := "a", status := some "new", cold_emailed := some (some false) }]
        "a" (some "new") (.thrown "crash")).rows =
      [{ id := "a", status := some "new", cold_emailed := some (some false) }] ∧
    (toggleStatus [{ id := "a", status := some "new", cold_emailed := some (some false) }]
        "a" (some "new") (.thrown "crash")).toasts =
      [⟨.error, "Failed to update status: " ++ "crash"⟩] ∧
    (toggleStatus [{ id := "a", status := some "new", cold_emailed := some (some false) }]
        "a" (some "new") (.thrown "crash")).reloadTriggered = true ∧
    (toggleColdEmail true [{ id := "a", status := some "new", cold_emailed := some (some false) }]
        "a" (some (some false)) (.err (some "boom"))).rows =
      [{ id := "a", status := some "new", cold_emailed := some (some false) }] ∧
    (toggleColdEmail true [{ id := "a", status := some "new", cold_emailed := some (some false) }]
        "a" (some (some false)) (.err (some "boom"))).toasts =
      [⟨.error, "Failed to update cold-emailed: " ++ (some "boom").getD "unknown"⟩] ∧
    (toggleColdEmail true [{ id := "a", status := some "new", cold_emailed := some (some false) }]
        "a" (some (some false)) (.err (some "boom"))).reloadTriggered = true ∧
    (toggleColdEmail true [{ id := "a", status := some "new", cold_emailed := some (some false) }]
        "a" (some (some false)) (.thrown "crash")).rows =
      [{ id := "a", status := some "new", cold_emailed := some (some false) }] ∧
    (toggleColdEmail true [{ id := "a", status := some "new", cold_emailed := some (some false) }]
        "a" (some (some false)) (.thrown "crash")).toasts =
      [⟨.error, "Failed to update cold-emailed: " ++ "crash"⟩] ∧
    (toggleColdEmail true [{ id := "a", status := some "new", cold_emailed := some (some false) }]
        "a" (some (some false)) (.thrown "crash")).reloadTriggered = true :=
  failed_single_row_patch_rolls_back
    [{ id := "a", status := some "new", cold_emailed := some (some false) }]
    "a" (some "new") (some (some false)) (some "boom") "crash" (by decide) (by decide)

/-- C6 (counterexample): a PATCH body in which `id` and `updates` are both
present and `updates` is non-empty can still fail validation — the check is
JS truthiness, so the present-but-falsy id `0` (likewise `""`) is answered
400 `{error: "Missing id or updates"}` with no store call. -/
theorem present_falsy_id_rejected :
    (some (JsId.num 0)).isSome = true ∧
    HospitalUpdate.keysLength { name := some "x" } ≠ 0 ∧
    patchHandler none (.ok (some ⟨some (.num 0), some { name := some "x" }⟩)) .ok =
      (⟨400, some "Missing id or updates"⟩, none) := by
  decide

/-- C6 (amended): a PATCH request passes validation iff `id` and `updates`
are both present, `id` is truthy (a non-empty string or non-zero number)
and `updates` is non-empty; every request failing validation — the body
`{}` in particular — is answered 400 `{error: "Missing id or updates"}`
with no store call, and every request passing it reaches the store
update. -/
theorem patch_validation_characterization (b : Option PatchBody) (st : StoreOutcome) :
    (patchPasses b = true ↔
      ∃ i u, b = some ⟨some i, some u⟩ ∧ i.truthy = true ∧ u.keysLength ≠ 0) ∧
    (patchPasses b = false →
      patchHandler none (.ok b) st = (⟨400, some "Missing id or updates"⟩, none)) ∧
    (patchPasses b = true → (patchHandler none (.ok b) st).2.isSome = true) ∧
    patchHandler none (.ok (some ⟨none, none⟩)) st =
      (⟨400, some "Missing id or updates"⟩, none) := by
  refine ⟨?_, ?_, ?_, rfl⟩
  · cases b with
    | none => simp [patchPasses]
    | some pb =>
      obtain ⟨oi, ou⟩ := pb
      cases oi with
      | none => simp [patchPasses]
      | some i =>
        cases ou with
        | none => simp [patchPasses]
        | some u =>
          simp only [patchPasses, Bool.and_eq_true, bne_iff_ne, ne_eq]
          constructor
          · rintro ⟨h1, h2⟩
            exact ⟨i, u, rfl, h1, h2⟩
          · rintro ⟨i2, u2, he, h1, h2⟩
            simp only [Option.some.injEq, PatchBody.mk.injEq] at he
            obtain ⟨hi, hu⟩ := he
            subst hi
            subst hu
            exact ⟨h1, h2⟩
  · intro h
    cases b with
    | none => rfl
    | some pb =>
      obtain ⟨oi, ou⟩ := pb
      cases oi with
      | none => rfl
      | some i =>
        cases ou with
        | none => rfl
        | some u =>
          simp only [patchPasses] at h
          rw [patchHandler_ok_some, if_neg (by simp [h])]
  · intro h
    cases b with
    | none => simp [patchPasses] at h
    | some pb =>
      obtain ⟨oi, ou⟩ := pb
      cases oi with
      | none => simp [patchPasses] at h
      | some i =>
        cases ou with
        | none => simp [patchPasses] at h
        | some u =>
          simp only [patchPasses] at h
          rw [patchHandler_ok_some, if_pos h]
          cases st <;> rfl

/-- Witness for the amended C6: a passing body reaches the store, the body
`{}` (and a null body) are answered 400. -/
theorem patch_validation_characterization_witness :
    (patchHandler none (.ok (some ⟨some (JsId.str "h1"), some { name := some "x" }⟩))
        .ok).2.isSome = true ∧
    patchHandler none (.ok none) .ok = (⟨400, some "Missing id or updates"⟩, none) :=
  ⟨(patch_validation_characterization
      (some ⟨some (.str "h1"), some { name := some "x" }⟩) .ok).2.2.1 (by decide),
   (patch_validation_characterization none .ok).2.1 (by decide)⟩
